import Mathlib

/-!
# Verification of the nuclide datatip manager

Shallow embedding of the datatip (hover tooltip) coordination engine from
pkg/nuclide-datatip (the DatatipManager source file in this repository):
the provider race (getTopDatatipAndProvider, filterProvidersByScopeName,
getProviderName), configuration validation (ensurePositiveNumber), and the
per-editor tooltip session state machine (DatatipManagerForEditor) with its
event handlers, modelled as an explicit step function over a session-state
record.  Asynchronous fetch completion is modelled as a separate event
carrying the resolved data, so a trace interleaves fetch starts, UI events
and late fetch arrivals exactly as the single-threaded event loop does.

Conventions:
* Buffer points and ranges follow the host editor semantics: points are
  (row, column) pairs compared lexicographically, and containsPoint is
  inclusive at both endpoints.
* Times (performance.now values) are naturals; the code only compares
  differences against constants.
* The stored last mousemove event is represented by the buffer position it
  resolves to (getBufferPosition applied to it); a stored event that
  resolves to null is identified with the absence of a stored event, which
  is observationally equivalent because the event is only ever consumed
  through getBufferPosition.
-/

/-- A buffer position: row and column. -/
structure BufferPoint where
  row : Int
  column : Int
deriving DecidableEq, Repr

/-- Lexicographic order on buffer points, as used by the host editor. -/
def BufferPoint.le (p q : BufferPoint) : Bool :=
  p.row < q.row || (p.row == q.row && p.column ≤ q.column)

/-- A buffer range with a start and an end point. -/
structure BufferRange where
  startPoint : BufferPoint
  endPoint : BufferPoint
deriving DecidableEq, Repr

/-- Host editor containsPoint: start <= p <= end (inclusive by default). -/
def BufferRange.containsPoint (r : BufferRange) (p : BufferPoint) : Bool :=
  r.startPoint.le p && p.le r.endPoint

/-- A datatip value returned by a provider: an abstract payload standing for
the renderable component, an optional range, and the pinnable flag. -/
structure Datatip where
  payload : String
  range : Option BufferRange
  pinnable : Option Bool
deriving DecidableEq, Repr

/-- The outcome of invoking a provider: a resolved optional datatip, or a
rejection/synchronous throw carrying an error description. -/
inductive ProviderResult where
  | ok (datatip : Option Datatip)
  | err (message : String)
deriving DecidableEq, Repr

/-- A datatip provider descriptor: optional name, inclusion priority and
scope-applicability predicate, as consumed by the manager. -/
structure ProviderSpec where
  providerName : Option String
  inclusionPriority : Int
  validForScope : String → Bool

/-- One logger.error entry. -/
structure LogEntry where
  message : String
deriving DecidableEq, Repr

/-- getProviderName from the source: returns the provider name, logging an
error and substituting "unknown" when the provider has no name. -/
def getProviderName (provider : ProviderSpec) : String × List LogEntry :=
  match provider.providerName with
  | none => ("unknown", [⟨"Datatip provider has no name"⟩])
  | some name => (name, [])

/-- Insert a provider into a list sorted by descending inclusionPriority,
keeping earlier-listed providers first among equal priorities (stable). -/
def insertByPriority (x : ProviderSpec) : List ProviderSpec → List ProviderSpec
  | [] => [x]
  | y :: ys =>
    if x.inclusionPriority < y.inclusionPriority then y :: insertByPriority x ys
    else x :: y :: ys

/-- Stable sort by descending inclusionPriority, modelling the comparator
(a, b) => b.inclusionPriority - a.inclusionPriority. -/
def sortByPriorityDesc : List ProviderSpec → List ProviderSpec
  | [] => []
  | x :: xs => insertByPriority x (sortByPriorityDesc xs)

/-- filterProvidersByScopeName from the source: keep providers with
inclusionPriority > 0 that are valid for the scope, sorted by descending
inclusionPriority. -/
def filterProvidersByScopeName (providers : List ProviderSpec)
    (scopeName : String) : List ProviderSpec :=
  sortByPriorityDesc (providers.filter
    (fun provider =>
      decide (0 < provider.inclusionPriority) && provider.validForScope scopeName))

/-- A race result: the winning provider together with its datatip. -/
structure RaceWin where
  provider : ProviderSpec
  datatip : Datatip

/-- The per-provider attempt body from getTopDatatipAndProvider: resolve the
provider name (possibly logging), invoke the provider, and on rejection log
one error naming the provider and yield null. -/
def attemptProvider (invoke : ProviderSpec → ProviderResult)
    (provider : ProviderSpec) : Option RaceWin × List LogEntry :=
  let named := getProviderName provider
  match invoke provider with
  | .ok none => (none, named.2)
  | .ok (some datatip) => (some ⟨provider, datatip⟩, named.2)
  | .err _ =>
    (none, named.2 ++ [⟨"Error getting datatip from provider " ++ named.1⟩])

/-- Modelled from the spec: the sequential find-first-truthy combinator
(asyncFind from the commons promise module, which is not under src/).  The
spec states the race awaits the attempt results in original list order and
returns the first that resolves truthy. -/
def firstSome : List (Option α) → Option α
  | [] => none
  | none :: rest => firstSome rest
  | some a :: _ => some a

/-- getTopDatatipAndProvider from the source: filter and sort the providers
by scope and priority, return null immediately when no provider is
applicable, otherwise run every attempt and take the first truthy result in
list order.  Note that the attempts are mapped over the original providers
argument, not over filteredDatatipProviders, exactly as in the source.  The
second component collects the logger.error entries produced by all
attempts (every attempt runs; the collection order abstracts the
wall-clock interleaving). -/
def getTopDatatipAndProvider (providers : List ProviderSpec)
    (scopeName : String) (invoke : ProviderSpec → ProviderResult) :
    Option RaceWin × List LogEntry :=
  let filteredDatatipProviders := filterProvidersByScopeName providers scopeName
  if filteredDatatipProviders.length = 0 then (none, [])
  else
    let attempts := providers.map (attemptProvider invoke)
    (firstSome (attempts.map Prod.fst), (attempts.map Prod.snd).flatten)

/-- Modelled from the spec: the race the specification describes, which runs
the attempts over the scope-applicable, priority-sorted provider list (the
first provider in descending inclusion-priority order whose invocation
resolves non-null wins).  Kept separate from getTopDatatipAndProvider so the
two can be compared. -/
def specTopDatatipAndProvider (providers : List ProviderSpec)
    (scopeName : String) (invoke : ProviderSpec → ProviderResult) :
    Option RaceWin :=
  let filtered := filterProvidersByScopeName providers scopeName
  if filtered.length = 0 then none
  else firstSome ((filtered.map (attemptProvider invoke)).map Prod.fst)

/-! ## Configuration validation -/

/-- A JavaScript configuration value as read from the feature config.
Numbers are modelled as integers (the delays are millisecond counts; no
claim depends on fractional values). -/
inductive JSVal where
  | num (n : Int)
  | str (s : String)
  | boolean (b : Bool)
  | null
  | undef
deriving DecidableEq, Repr

/-- Whether typeof value === "number" holds. -/
def JSVal.isNumber : JSVal → Bool
  | .num _ => true
  | _ => false

/-- ensurePositiveNumber from the source: any value that is not a number, or
is negative, is replaced by the default. -/
def ensurePositiveNumber (value : JSVal) (defaultValue : Int) : Int :=
  match value with
  | .num n => if n < 0 then defaultValue else n
  | _ => defaultValue

/-- DEFAULT_DATATIP_DEBOUNCE_DELAY from the source. -/
def DEFAULT_DATATIP_DEBOUNCE_DELAY : Int := 1000

/-- DEFAULT_DATATIP_INTERACTED_DEBOUNCE_DELAY from the source. -/
def DEFAULT_DATATIP_INTERACTED_DEBOUNCE_DELAY : Int := 1000

/-- CUMULATIVE_WHEELX_THRESHOLD from the source. -/
def CUMULATIVE_WHEELX_THRESHOLD : Nat := 20

/-- The delay passed to debounce by setStartFetchingDebounce: the configured
datatipDebounceDelay run through ensurePositiveNumber with the default. -/
def startFetchingDebounceDelay (configValue : JSVal) : Int :=
  ensurePositiveNumber configValue DEFAULT_DATATIP_DEBOUNCE_DELAY

/-- The delay passed to debounce by setHideIfOutsideDebounce: the configured
datatipInteractedWithDebounceDelay run through ensurePositiveNumber with the
default. -/
def hideIfOutsideDebounceDelay (configValue : JSVal) : Int :=
  ensurePositiveNumber configValue DEFAULT_DATATIP_INTERACTED_DEBOUNCE_DELAY

/-! ## The per-editor session state machine (DatatipManagerForEditor) -/

/-- The session tooltip state (DatatipState in the source). -/
inductive DatatipState where
  | HIDDEN
  | FETCHING
  | VISIBLE
deriving DecidableEq, Repr

/-- A modifier key held during input events. -/
inductive ModifierKey where
  | alt
  | shift
  | ctrl
  | meta
deriving DecidableEq, Repr

/-- A live PinnedDatatip as the session observes it: only its isHovering
answer matters to the hover session (the tip itself lives outside src/).
The Boolean records what isHovering reports at the instants the session
consults it. -/
structure PTip where
  isHovering : Bool
deriving DecidableEq, Repr

/-- The data a completed fetch hands back to startFetching: the range of the
winning datatip (the rendered component is abstracted away). -/
structure FetchData where
  range : Option BufferRange
deriving DecidableEq, Repr

/-- The mutable fields of DatatipManagerForEditor that the event handlers
read and write.  marker records whether a marker/overlay decoration is
currently mounted. -/
structure DatatipManagerForEditor where
  datatipState : DatatipState
  blacklistedPosition : Option BufferPoint
  marker : Bool
  range : Option BufferRange
  interactedWith : Bool
  cumulativeWheelX : Nat
  lastHiddenTime : Nat
  lastFetchedFromCursorPosition : Bool
  lastMoveEvent : Option BufferPoint
  lastPosition : Option BufferPoint
  shouldDropNextMouseMoveAfterFocus : Bool
  insideDatatip : Bool
  heldKeys : List ModifierKey
  pinnedDatatips : List PTip
deriving DecidableEq, Repr

/-- The session as the constructor leaves it (fields not assigned in the
constructor are undefined in the source and behave as false/null). -/
def initialManagerForEditor : DatatipManagerForEditor where
  datatipState := .HIDDEN
  blacklistedPosition := none
  marker := false
  range := none
  interactedWith := false
  cumulativeWheelX := 0
  lastHiddenTime := 0
  lastFetchedFromCursorPosition := false
  lastMoveEvent := none
  lastPosition := none
  shouldDropNextMouseMoveAfterFocus := false
  insideDatatip := false
  heldKeys := []
  pinnedDatatips := []

/-- hideDatatip from the source: record the hide time, destroy the marker,
clear the range and unmount the overlay element. -/
def DatatipManagerForEditor.hideDatatip (s : DatatipManagerForEditor)
    (now : Nat) : DatatipManagerForEditor :=
  { s with lastHiddenTime := now, marker := false, range := none }

/-- setState from the source: record the new state; on entering HIDDEN clear
the blacklisted position and, when the previous state was not HIDDEN,
unmount the datatip. -/
def DatatipManagerForEditor.setState (s : DatatipManagerForEditor)
    (now : Nat) (newState : DatatipState) : DatatipManagerForEditor :=
  let oldState := s.datatipState
  let s1 := { s with datatipState := newState }
  if newState = .HIDDEN then
    let s2 := { s1 with blacklistedPosition := none }
    if oldState ≠ .HIDDEN then s2.hideDatatip now else s2
  else s1

/-- isHoveringOverPinnedTip from the source: whether any live pinned tip in
the session's pinnedDatatips set reports isHovering. -/
def DatatipManagerForEditor.isHoveringOverPinnedTip
    (s : DatatipManagerForEditor) : Bool :=
  decide (0 < (s.pinnedDatatips.filter (fun dt => dt.isHovering)).length)

/-- The synchronous prefix of startFetching: resolve the position; when it
is null do nothing, otherwise enter FETCHING and record the queried
position (the lastPosition cache update in fetchAndRender).  The awaited
remainder is fetchResultArrives. -/
def DatatipManagerForEditor.startFetchingBegin (s : DatatipManagerForEditor)
    (now : Nat) (position : Option BufferPoint) : DatatipManagerForEditor :=
  match position with
  | none => s
  | some p => { s.setState now .FETCHING with lastPosition := some p }

/-- The checks startFetching performs on a non-null result after the state
re-check: blacklist containment, current-position containment and the
pinned-tip hover check, then mount.  s1 is the session after the state
re-check ran. -/
def DatatipManagerForEditor.fetchResultChecks (s1 : DatatipManagerForEditor)
    (now : Nat) (d : FetchData) (currentPos : Option BufferPoint) :
    DatatipManagerForEditor :=
  let blacklistHit :=
    match s1.blacklistedPosition, d.range with
    | some bp, some rg => rg.containsPoint bp
    | _, _ => false
  if blacklistHit then s1.setState now .HIDDEN
  else
    let positionGone :=
      match currentPos, d.range with
      | some cp, some rg => !rg.containsPoint cp
      | _, _ => true
    if positionGone then s1.setState now .HIDDEN
    else if s1.isHoveringOverPinnedTip then s1.setState now .HIDDEN
    else
      let s2 := s1.setState now .VISIBLE
      { s2 with
        interactedWith := false
        cumulativeWheelX := 0
        range := d.range
        marker := true }

/-- The continuation of startFetching after the awaited fetchAndRender call
resolves.  data is the resolved result; currentPos is what re-invoking the
getPosition closure returns at arrival time.  Mirrors the source exactly:
the state re-check sets HIDDEN but does not return, so control continues to
the blacklist, current-position and pinned-tip checks before mounting. -/
def DatatipManagerForEditor.fetchResultArrives (s : DatatipManagerForEditor)
    (now : Nat) (data : Option FetchData) (currentPos : Option BufferPoint) :
    DatatipManagerForEditor :=
  match data with
  | none => s.setState now .HIDDEN
  | some d =>
    (if s.datatipState ≠ .FETCHING then s.setState now .HIDDEN
     else s).fetchResultChecks now d currentPos

/-- fetchInResponseToKeyPress from the source: fetch from the live cursor
position when the last fetch used the cursor, otherwise from the stored
mousemove position. -/
def DatatipManagerForEditor.fetchInResponseToKeyPress
    (s : DatatipManagerForEditor) (now : Nat)
    (cursorPos : Option BufferPoint) : DatatipManagerForEditor :=
  if s.lastFetchedFromCursorPosition then s.startFetchingBegin now cursorPos
  else s.startFetchingBegin now s.lastMoveEvent

/-- hideIfOutsideImmediate from the source. -/
def DatatipManagerForEditor.hideIfOutsideImmediate
    (s : DatatipManagerForEditor) (now : Nat) : DatatipManagerForEditor :=
  if s.datatipState ≠ .VISIBLE then s
  else if s.insideDatatip then s
  else if s.isHoveringOverPinnedTip then s.setState now .HIDDEN
  else
    let stillInside :=
      match s.lastMoveEvent, s.range with
      | some cp, some rg => rg.containsPoint cp
      | _, _ => false
    if stillInside then s else s.setState now .HIDDEN

/-- hideIfOutside from the source: when the tooltip has been interacted
with, the hide check is deferred to the debounced timer (a later
hideDebounceFires event); otherwise it runs immediately. -/
def DatatipManagerForEditor.hideIfOutside (s : DatatipManagerForEditor)
    (now : Nat) : DatatipManagerForEditor :=
  if s.datatipState ≠ .VISIBLE then s
  else if s.interactedWith then s
  else s.hideIfOutsideImmediate now

/-- hideOrCancel from the source: while HIDDEN or FETCHING it records the
position of the last mousemove as blacklisted and returns; otherwise it
hides. -/
def DatatipManagerForEditor.hideOrCancel (s : DatatipManagerForEditor)
    (now : Nat) : DatatipManagerForEditor :=
  if s.datatipState = .HIDDEN ∨ s.datatipState = .FETCHING then
    { s with blacklistedPosition := s.lastMoveEvent }
  else s.setState now .HIDDEN

/-- toggleDatatip from the source: keydown more than 100ms after the last
hide (or a non-keyboard toggle while HIDDEN) force-shows from the cursor
position; keyup (or a non-keyboard toggle otherwise) hides or cancels.  The
command is ignored when this editor is not the active one.  eventType is
the originalEvent type when present; cursorPos is what
getCursorScreenPosition resolves to. -/
def DatatipManagerForEditor.toggleDatatip (s : DatatipManagerForEditor)
    (eventType : Option String) (now : Nat) (isActiveEditor : Bool)
    (cursorPos : Option BufferPoint) : DatatipManagerForEditor :=
  if !isActiveEditor then s
  else
    let forceShow :=
      eventType = some "keydown" ∧ 100 < now - s.lastHiddenTime
    let forceHide := eventType = some "keyup"
    let forceToggle :=
      eventType ≠ some "keydown" ∧ eventType ≠ some "keyup"
    if forceShow ∨ (forceToggle ∧ s.datatipState = .HIDDEN) then
      ({ s with lastFetchedFromCursorPosition := true }).startFetchingBegin
        now cursorPos
    else if forceHide ∨ forceToggle then s.hideOrCancel now
    else s

/-- handlePinClicked from the source: hide the hover tooltip and add the new
pinned tip to the session's pinned set. -/
def DatatipManagerForEditor.handlePinClicked (s : DatatipManagerForEditor)
    (now : Nat) (tipHovering : Bool) : DatatipManagerForEditor :=
  let s1 := s.setState now .HIDDEN
  { s1 with pinnedDatatips := s1.pinnedDatatips ++ [⟨tipHovering⟩] }

/-- createPinnedDataTip on the session from the source: construct and return
a new PinnedDatatip.  As in the source, the tip is not added to the
session's pinnedDatatips set and no other field is written, so the session
value is returned unchanged. -/
def DatatipManagerForEditor.createPinnedDataTip (s : DatatipManagerForEditor)
    (tipHovering : Bool) : PTip × DatatipManagerForEditor :=
  (⟨tipHovering⟩, s)

/-- The action the mousemove handler takes after updating its fields. -/
inductive MouseMoveAction where
  | dropped
  | scheduleFetchDebounce
  | checkHide
deriving DecidableEq, Repr

/-- The mousemove subscription body from the source: clear the
fetched-from-cursor flag; consume the one-shot drop flag (recording
nothing and taking no action) when it is set; otherwise record the move
event and held keys and either schedule the fetch debounce (while HIDDEN)
or run the hide-if-outside check. -/
def DatatipManagerForEditor.mousemoveHandler (s : DatatipManagerForEditor)
    (resolvedPos : Option BufferPoint) (mods : List ModifierKey) :
    DatatipManagerForEditor × MouseMoveAction :=
  let s1 := { s with lastFetchedFromCursorPosition := false }
  if s1.shouldDropNextMouseMoveAfterFocus then
    ({ s1 with shouldDropNextMouseMoveAfterFocus := false }, .dropped)
  else
    let s2 := { s1 with lastMoveEvent := resolvedPos, heldKeys := mods }
    if s2.datatipState = .HIDDEN then (s2, .scheduleFetchDebounce)
    else (s2, .checkHide)

/-- Add a modifier key to the held-key set (Immutable Set add). -/
def addModifierKey (ks : List ModifierKey) (k : ModifierKey) : List ModifierKey :=
  if ks.contains k then ks else ks ++ [k]

/-- Remove a modifier key from the held-key set (Immutable Set delete). -/
def removeModifierKey (ks : List ModifierKey) (k : ModifierKey) :
    List ModifierKey :=
  ks.filter (fun h => h ≠ k)

/-- The events a session reacts to.  UI events carry the environment inputs
the corresponding handlers read (resolved buffer positions, modifier keys,
whether the mousedown target lies inside the datatip element, the active
editor check for the toggle command).  fetchResult models the arrival of an
in-flight startFetching result; fetchDebounceFires and hideDebounceFires
model the debounced timers firing. -/
inductive SessionEvent where
  | focusGained
  | focusLost
  | mouseMoved (resolvedPos : Option BufferPoint) (mods : List ModifierKey)
  | mouseLeftEditor
  | editorMouseDown (insideDatatipElement : Bool)
  | keyDown (modifier : Option ModifierKey) (cursorPos : Option BufferPoint)
  | keyUp (modifier : Option ModifierKey) (cursorPos : Option BufferPoint)
  | wheelOnDatatip (deltaXAbs : Nat)
  | mouseDownOnDatatip
  | mouseEnterDatatip
  | mouseLeaveDatatip
  | scrollTopChanged
  | toggleCommand (eventType : Option String) (isActiveEditor : Bool)
      (cursorPos : Option BufferPoint)
  | fetchDebounceFires
  | hideDebounceFires
  | fetchResult (data : Option FetchData) (currentPos : Option BufferPoint)
  | pinClicked (tipHovering : Bool)
  | pinnedTipHidesDatatips

/-- One step of the session event loop at time now. -/
def sessionStep (now : Nat) (e : SessionEvent) (s : DatatipManagerForEditor) :
    DatatipManagerForEditor :=
  match e with
  | .focusGained =>
    let s1 := { s with shouldDropNextMouseMoveAfterFocus := true }
    if s1.insideDatatip then s1 else s1.setState now .HIDDEN
  | .focusLost =>
    if s.insideDatatip then s else s.setState now .HIDDEN
  | .mouseMoved resolvedPos mods =>
    let r := s.mousemoveHandler resolvedPos mods
    match r.2 with
    | .checkHide => r.1.hideIfOutside now
    | _ => r.1
  | .mouseLeftEditor =>
    ({ s with lastMoveEvent := none }).hideIfOutside now
  | .editorMouseDown insideDatatipElement =>
    if insideDatatipElement then s else s.hideOrCancel now
  | .keyDown modifier cursorPos =>
    match modifier with
    | some k =>
      let s1 := { s with heldKeys := addModifierKey s.heldKeys k }
      if s1.datatipState ≠ .HIDDEN then
        s1.fetchInResponseToKeyPress now cursorPos
      else s1
    | none => s.hideOrCancel now
  | .keyUp modifier cursorPos =>
    match modifier with
    | some k =>
      let s1 := { s with heldKeys := removeModifierKey s.heldKeys k }
      if s1.datatipState ≠ .HIDDEN then
        s1.fetchInResponseToKeyPress now cursorPos
      else s1
    | none => s
  | .wheelOnDatatip deltaXAbs =>
    let c := s.cumulativeWheelX + deltaXAbs
    let s1 := { s with cumulativeWheelX := c }
    if CUMULATIVE_WHEELX_THRESHOLD < c then { s1 with interactedWith := true }
    else s1
  | .mouseDownOnDatatip => { s with interactedWith := true }
  | .mouseEnterDatatip =>
    ({ s with insideDatatip := true }).hideIfOutside now
  | .mouseLeaveDatatip =>
    ({ s with insideDatatip := false }).hideIfOutside now
  | .scrollTopChanged =>
    let s1 := { s with lastMoveEvent := none }
    if s1.datatipState = .VISIBLE then s1.setState now .HIDDEN else s1
  | .toggleCommand eventType isActiveEditor cursorPos =>
    s.toggleDatatip eventType now isActiveEditor cursorPos
  | .fetchDebounceFires =>
    s.startFetchingBegin now s.lastMoveEvent
  | .hideDebounceFires =>
    s.hideIfOutsideImmediate now
  | .fetchResult data currentPos =>
    s.fetchResultArrives now data currentPos
  | .pinClicked tipHovering =>
    s.handlePinClicked now tipHovering
  | .pinnedTipHidesDatatips =>
    s.hideDatatip now

/-- Run a session from the constructor state through a timed event trace. -/
def runSession (trace : List (Nat × SessionEvent)) : DatatipManagerForEditor :=
  trace.foldl (fun s te => sessionStep te.1 te.2 s) initialManagerForEditor

/-! ## The top-level DatatipManager -/

/-- The top-level manager: the per-editor session map, keyed by editor
identity (modelled as a natural number). -/
structure DatatipManager where
  editorManagers : List (Nat × DatatipManagerForEditor)

/-- Map lookup on the per-editor session map. -/
def lookupEditorManager (entries : List (Nat × DatatipManagerForEditor))
    (editorId : Nat) : Option DatatipManagerForEditor :=
  match entries with
  | [] => none
  | (k, v) :: rest =>
    if k = editorId then some v else lookupEditorManager rest editorId

/-- createPinnedDataTip on the top-level manager from the source: look up
the session for the editor, throw when none exists, otherwise delegate to
the session.  No manager state is mutated, so the manager is returned
unchanged alongside the new tip. -/
def DatatipManager.createPinnedDataTip (m : DatatipManager)
    (editorId : Nat) (tipHovering : Bool) :
    Except String (PTip × DatatipManager) :=
  match lookupEditorManager m.editorManagers editorId with
  | none =>
    .error ("Trying to create a pinned data tip on an editor that has " ++
      "no datatip manager")
  | some manager =>
    .ok ((manager.createPinnedDataTip tipHovering).1, m)

/-! ## Overlay invariant infrastructure -/

/-- A marker/overlay is never mounted while the session is HIDDEN. -/
def OverlayInv (s : DatatipManagerForEditor) : Prop :=
  s.marker = true → s.datatipState ≠ .HIDDEN

theorem overlayInv_congr {s s' : DatatipManagerForEditor} (h : OverlayInv s)
    (hm : s'.marker = s.marker) (hd : s'.datatipState = s.datatipState) :
    OverlayInv s' := fun hmk => hd ▸ h (hm ▸ hmk)

theorem hideDatatip_overlayInv (s : DatatipManagerForEditor) (now : Nat) :
    OverlayInv (s.hideDatatip now) := by
  intro hm
  simp [DatatipManagerForEditor.hideDatatip] at hm

theorem setState_overlayInv {s : DatatipManagerForEditor} (now : Nat)
    (st : DatatipState) (h : OverlayInv s) : OverlayInv (s.setState now st) := by
  unfold DatatipManagerForEditor.setState
  dsimp only
  split
  · split
    · exact hideDatatip_overlayInv _ now
    · rename_i hst hold
      push_neg at hold
      intro hm
      exact absurd hold (h hm)
  · rename_i hst
    intro _
    simpa using hst

theorem startFetchingBegin_overlayInv {s : DatatipManagerForEditor} (now : Nat)
    (position : Option BufferPoint) (h : OverlayInv s) :
    OverlayInv (s.startFetchingBegin now position) := by
  unfold DatatipManagerForEditor.startFetchingBegin
  cases position with
  | none => exact h
  | some p =>
    exact overlayInv_congr (setState_overlayInv now .FETCHING h) rfl rfl

theorem hideOrCancel_overlayInv {s : DatatipManagerForEditor} (now : Nat)
    (h : OverlayInv s) : OverlayInv (s.hideOrCancel now) := by
  unfold DatatipManagerForEditor.hideOrCancel
  split
  · exact overlayInv_congr h rfl rfl
  · exact setState_overlayInv now .HIDDEN h

theorem hideIfOutsideImmediate_overlayInv {s : DatatipManagerForEditor}
    (now : Nat) (h : OverlayInv s) : OverlayInv (s.hideIfOutsideImmediate now) := by
  unfold DatatipManagerForEditor.hideIfOutsideImmediate
  dsimp only
  repeat' split
  all_goals first
    | exact h
    | exact setState_overlayInv now .HIDDEN h

theorem hideIfOutside_overlayInv {s : DatatipManagerForEditor} (now : Nat)
    (h : OverlayInv s) : OverlayInv (s.hideIfOutside now) := by
  unfold DatatipManagerForEditor.hideIfOutside
  split
  · exact h
  · split
    · exact h
    · exact hideIfOutsideImmediate_overlayInv now h

theorem fetchInResponseToKeyPress_overlayInv {s : DatatipManagerForEditor}
    (now : Nat) (cursorPos : Option BufferPoint) (h : OverlayInv s) :
    OverlayInv (s.fetchInResponseToKeyPress now cursorPos) := by
  unfold DatatipManagerForEditor.fetchInResponseToKeyPress
  split
  · exact startFetchingBegin_overlayInv now _ h
  · exact startFetchingBegin_overlayInv now _ h

theorem toggleDatatip_overlayInv {s : DatatipManagerForEditor}
    (eventType : Option String) (now : Nat) (isActiveEditor : Bool)
    (cursorPos : Option BufferPoint) (h : OverlayInv s) :
    OverlayInv (s.toggleDatatip eventType now isActiveEditor cursorPos) := by
  unfold DatatipManagerForEditor.toggleDatatip
  dsimp only
  repeat' split
  all_goals first
    | exact h
    | exact startFetchingBegin_overlayInv now _ (overlayInv_congr h rfl rfl)
    | exact hideOrCancel_overlayInv now h

theorem fetchResultChecks_overlayInv {s1 : DatatipManagerForEditor}
    (now : Nat) (d : FetchData) (currentPos : Option BufferPoint)
    (h : OverlayInv s1) : OverlayInv (s1.fetchResultChecks now d currentPos) := by
  unfold DatatipManagerForEditor.fetchResultChecks
  dsimp only
  repeat' split
  all_goals first
    | exact setState_overlayInv now .HIDDEN h
    | (intro _; simp [DatatipManagerForEditor.setState])

theorem fetchResultArrives_overlayInv {s : DatatipManagerForEditor} (now : Nat)
    (data : Option FetchData) (currentPos : Option BufferPoint)
    (h : OverlayInv s) : OverlayInv (s.fetchResultArrives now data currentPos) := by
  unfold DatatipManagerForEditor.fetchResultArrives
  cases data with
  | none => exact setState_overlayInv now .HIDDEN h
  | some d =>
    dsimp only
    apply fetchResultChecks_overlayInv
    split
    · exact setState_overlayInv now .HIDDEN h
    · exact h

theorem handlePinClicked_overlayInv {s : DatatipManagerForEditor} (now : Nat)
    (tipHovering : Bool) (h : OverlayInv s) :
    OverlayInv (s.handlePinClicked now tipHovering) := by
  unfold DatatipManagerForEditor.handlePinClicked
  exact overlayInv_congr (setState_overlayInv now .HIDDEN h) rfl rfl

theorem mousemoveHandler_overlayInv {s : DatatipManagerForEditor}
    (resolvedPos : Option BufferPoint) (mods : List ModifierKey)
    (h : OverlayInv s) : OverlayInv (s.mousemoveHandler resolvedPos mods).1 := by
  unfold DatatipManagerForEditor.mousemoveHandler
  dsimp only
  split
  · exact overlayInv_congr h rfl rfl
  · split
    · exact overlayInv_congr h rfl rfl
    · exact overlayInv_congr h rfl rfl

theorem sessionStep_overlayInv {s : DatatipManagerForEditor} (now : Nat)
    (e : SessionEvent) (h : OverlayInv s) : OverlayInv (sessionStep now e s) := by
  cases e with
  | focusGained =>
    show OverlayInv (if _ then _ else _)
    split
    · exact overlayInv_congr h rfl rfl
    · exact setState_overlayInv now .HIDDEN (overlayInv_congr h rfl rfl)
  | focusLost =>
    show OverlayInv (if _ then _ else _)
    split
    · exact h
    · exact setState_overlayInv now .HIDDEN h
  | mouseMoved resolvedPos mods =>
    show OverlayInv (match (s.mousemoveHandler resolvedPos mods).2 with
      | .checkHide => (s.mousemoveHandler resolvedPos mods).1.hideIfOutside now
      | _ => (s.mousemoveHandler resolvedPos mods).1)
    have hh := mousemoveHandler_overlayInv resolvedPos mods h
    cases (s.mousemoveHandler resolvedPos mods).2 with
    | dropped => exact hh
    | scheduleFetchDebounce => exact hh
    | checkHide => exact hideIfOutside_overlayInv now hh
  | mouseLeftEditor =>
    exact hideIfOutside_overlayInv now (overlayInv_congr h rfl rfl)
  | editorMouseDown insideDatatipElement =>
    show OverlayInv (if _ then _ else _)
    split
    · exact h
    · exact hideOrCancel_overlayInv now h
  | keyDown modifier cursorPos =>
    cases modifier with
    | none => exact hideOrCancel_overlayInv now h
    | some k =>
      show OverlayInv (if _ then _ else _)
      split
      · exact fetchInResponseToKeyPress_overlayInv now _
          (overlayInv_congr h rfl rfl)
      · exact overlayInv_congr h rfl rfl
  | keyUp modifier cursorPos =>
    cases modifier with
    | none => exact h
    | some k =>
      show OverlayInv (if _ then _ else _)
      split
      · exact fetchInResponseToKeyPress_overlayInv now _
          (overlayInv_congr h rfl rfl)
      · exact overlayInv_congr h rfl rfl
  | wheelOnDatatip deltaXAbs =>
    show OverlayInv (if _ then _ else _)
    split
    · exact overlayInv_congr h rfl rfl
    · exact overlayInv_congr h rfl rfl
  | mouseDownOnDatatip => exact overlayInv_congr h rfl rfl
  | mouseEnterDatatip =>
    exact hideIfOutside_overlayInv now (overlayInv_congr h rfl rfl)
  | mouseLeaveDatatip =>
    exact hideIfOutside_overlayInv now (overlayInv_congr h rfl rfl)
  | scrollTopChanged =>
    show OverlayInv (if _ then _ else _)
    split
    · exact setState_overlayInv now .HIDDEN (overlayInv_congr h rfl rfl)
    · exact overlayInv_congr h rfl rfl
  | toggleCommand eventType isActiveEditor cursorPos =>
    exact toggleDatatip_overlayInv eventType now isActiveEditor cursorPos h
  | fetchDebounceFires => exact startFetchingBegin_overlayInv now _ h
  | hideDebounceFires => exact hideIfOutsideImmediate_overlayInv now h
  | fetchResult data currentPos => exact fetchResultArrives_overlayInv now _ _ h
  | pinClicked tipHovering => exact handlePinClicked_overlayInv now _ h
  | pinnedTipHidesDatatips => exact hideDatatip_overlayInv s now

theorem foldl_overlayInv (trace : List (Nat × SessionEvent))
    (s : DatatipManagerForEditor) (h : OverlayInv s) :
    OverlayInv (trace.foldl (fun s te => sessionStep te.1 te.2 s) s) := by
  induction trace generalizing s with
  | nil => exact h
  | cons te rest ih =>
    exact ih _ (sessionStep_overlayInv te.1 te.2 h)

theorem runSession_overlayInv (trace : List (Nat × SessionEvent)) :
    OverlayInv (runSession trace) :=
  foldl_overlayInv trace initialManagerForEditor (by intro hm; simp [initialManagerForEditor] at hm)

/-! ## Race helper lemmas -/

theorem firstSome_append (xs ys : List (Option α)) :
    firstSome (xs ++ ys) =
      match firstSome xs with
      | some a => some a
      | none => firstSome ys := by
  induction xs with
  | nil => simp [firstSome]
  | cons x xs ih => cases x <;> simp [firstSome, ih]

theorem insertByPriority_ne_nil (x : ProviderSpec) (l : List ProviderSpec) :
    insertByPriority x l ≠ [] := by
  cases l with
  | nil => simp [insertByPriority]
  | cons y ys =>
    unfold insertByPriority
    split <;> simp

theorem sortByPriorityDesc_eq_nil_iff (l : List ProviderSpec) :
    sortByPriorityDesc l = [] ↔ l = [] := by
  cases l with
  | nil => simp [sortByPriorityDesc]
  | cons x xs => simp [sortByPriorityDesc, insertByPriority_ne_nil]

/-- The scope/priority filter predicate used by filterProvidersByScopeName. -/
def scopeFilterPred (scopeName : String) (provider : ProviderSpec) : Bool :=
  decide (0 < provider.inclusionPriority) && provider.validForScope scopeName

theorem filterProvidersByScopeName_def (providers : List ProviderSpec)
    (scopeName : String) :
    filterProvidersByScopeName providers scopeName =
      sortByPriorityDesc (providers.filter (scopeFilterPred scopeName)) := rfl

theorem filterProvidersByScopeName_eq_nil_iff (providers : List ProviderSpec)
    (scopeName : String) :
    filterProvidersByScopeName providers scopeName = [] ↔
      providers.filter (scopeFilterPred scopeName) = [] := by
  rw [filterProvidersByScopeName_def, sortByPriorityDesc_eq_nil_iff]

theorem filterProviders_insert_ne_nil (l r : List ProviderSpec)
    (p : ProviderSpec) (scopeName : String)
    (h : filterProvidersByScopeName (l ++ r) scopeName ≠ []) :
    filterProvidersByScopeName (l ++ p :: r) scopeName ≠ [] := by
  rw [Ne, filterProvidersByScopeName_eq_nil_iff] at h ⊢
  intro hc
  apply h
  rw [List.filter_append] at hc ⊢
  rw [List.append_eq_nil] at hc ⊢
  refine ⟨hc.1, ?_⟩
  have h2 := hc.2
  rw [List.filter_cons] at h2
  by_cases hp : scopeFilterPred scopeName p = true
  · rw [if_pos hp] at h2
    exact absurd h2 (List.cons_ne_nil _ _)
  · rwa [if_neg hp] at h2

theorem attemptProvider_congr {inv inv2 : ProviderSpec → ProviderResult}
    {q : ProviderSpec} (h : inv2 q = inv q) :
    attemptProvider inv2 q = attemptProvider inv q := by
  simp only [attemptProvider, h]

theorem attemptProvider_err {inv : ProviderSpec → ProviderResult}
    {p : ProviderSpec} {n errMessage : String}
    (hname : p.providerName = some n) (herr : inv p = .err errMessage) :
    attemptProvider inv p =
      (none, [⟨"Error getting datatip from provider " ++ n⟩]) := by
  simp [attemptProvider, herr, getProviderName, hname]

theorem getTop_of_filtered_nil {providers : List ProviderSpec}
    {scopeName : String} (inv : ProviderSpec → ProviderResult)
    (h : filterProvidersByScopeName providers scopeName = []) :
    getTopDatatipAndProvider providers scopeName inv = (none, []) := by
  unfold getTopDatatipAndProvider
  dsimp only
  rw [if_pos]
  simp [h]

theorem getTop_of_filtered_ne_nil {providers : List ProviderSpec}
    {scopeName : String} (inv : ProviderSpec → ProviderResult)
    (h : filterProvidersByScopeName providers scopeName ≠ []) :
    getTopDatatipAndProvider providers scopeName inv =
      (firstSome ((providers.map (attemptProvider inv)).map Prod.fst),
        ((providers.map (attemptProvider inv)).map Prod.snd).flatten) := by
  unfold getTopDatatipAndProvider
  dsimp only
  rw [if_neg]
  simpa [List.length_eq_zero] using h

/-- C6: a provider whose invocation throws or rejects is treated as a null
result: the race outcome is unchanged if its invocation is replaced by a
null-resolving one, and (when some other provider is applicable so the race
runs) the outcome equals the race over the remaining providers alone; the
failing provider contributes exactly one error log entry, identifying it by
name; the failure never escapes the race. -/
theorem c6_provider_failure_isolated
    (l r : List ProviderSpec) (p : ProviderSpec) (scopeName : String)
    (inv inv2 : ProviderSpec → ProviderResult) (n errMessage : String)
    (hname : p.providerName = some n)
    (herr : inv p = .err errMessage)
    (hnull : inv2 p = .ok none)
    (hl : ∀ q ∈ l, inv2 q = inv q)
    (hr : ∀ q ∈ r, inv2 q = inv q) :
    (getTopDatatipAndProvider (l ++ p :: r) scopeName inv).1 =
        (getTopDatatipAndProvider (l ++ p :: r) scopeName inv2).1
    ∧ (attemptProvider inv p).2 =
        [⟨"Error getting datatip from provider " ++ n⟩]
    ∧ (filterProvidersByScopeName (l ++ r) scopeName ≠ [] →
        (getTopDatatipAndProvider (l ++ p :: r) scopeName inv).1 =
            (getTopDatatipAndProvider (l ++ r) scopeName inv).1
        ∧ (getTopDatatipAndProvider (l ++ p :: r) scopeName inv).2 =
            (l.map (fun q => (attemptProvider inv q).2)).flatten
              ++ [⟨"Error getting datatip from provider " ++ n⟩]
              ++ (r.map (fun q => (attemptProvider inv q).2)).flatten) := by
  have hmapl : l.map (attemptProvider inv2) = l.map (attemptProvider inv) :=
    List.map_congr_left (fun q hq => attemptProvider_congr (hl q hq))
  have hmapr : r.map (attemptProvider inv2) = r.map (attemptProvider inv) :=
    List.map_congr_left (fun q hq => attemptProvider_congr (hr q hq))
  have hap : attemptProvider inv p =
      (none, [⟨"Error getting datatip from provider " ++ n⟩]) :=
    attemptProvider_err hname herr
  have hap2 : attemptProvider inv2 p = (none, []) := by
    simp [attemptProvider, hnull, getProviderName, hname]
  refine ⟨?_, ?_, ?_⟩
  · by_cases hf : filterProvidersByScopeName (l ++ p :: r) scopeName = []
    · rw [getTop_of_filtered_nil inv hf, getTop_of_filtered_nil inv2 hf]
    · rw [getTop_of_filtered_ne_nil inv hf, getTop_of_filtered_ne_nil inv2 hf]
      simp only [List.map_append, List.map_cons, hmapl, hmapr, hap, hap2]
  · rw [hap]
  · intro hne
    have hf1 : filterProvidersByScopeName (l ++ p :: r) scopeName ≠ [] :=
      filterProviders_insert_ne_nil l r p scopeName hne
    rw [getTop_of_filtered_ne_nil inv hf1, getTop_of_filtered_ne_nil inv hne]
    constructor
    · simp only [List.map_append, List.map_cons, hap]
      rw [firstSome_append, firstSome_append]
      simp [firstSome]
    · simp only [List.map_append, List.map_cons, hap, List.map_map]
      simp [Function.comp_def, List.append_assoc]

/-- C6 witness: a named failing provider alongside one applicable working
provider, evaluated concretely. -/
theorem c6_provider_failure_isolated_witness :
    (getTopDatatipAndProvider
        [⟨some "bad", 10, fun _ => true⟩, ⟨some "good", 5, fun _ => true⟩]
        "source.js"
        (fun q => if q.providerName = some "bad" then .err "boom"
          else .ok (some ⟨"g", none, none⟩))).1 =
      (getTopDatatipAndProvider
        [⟨some "bad", 10, fun _ => true⟩, ⟨some "good", 5, fun _ => true⟩]
        "source.js"
        (fun q => if q.providerName = some "bad" then .ok none
          else .ok (some ⟨"g", none, none⟩))).1 := by
  have h := c6_provider_failure_isolated
    [] [⟨some "good", 5, fun _ => true⟩] ⟨some "bad", 10, fun _ => true⟩
    "source.js"
    (fun q => if q.providerName = some "bad" then .err "boom"
      else .ok (some ⟨"g", none, none⟩))
    (fun q => if q.providerName = some "bad" then .ok none
      else .ok (some ⟨"g", none, none⟩))
    "bad" "boom" rfl rfl rfl
    (by intro q hq; simp at hq)
    (by
      intro q hq
      simp only [List.mem_singleton] at hq
      subst hq
      rfl)
  exact h.1

/-! ## Concrete fixtures -/

/-- A datatip from provider A. -/
def dtA : Datatip := ⟨"A", some ⟨⟨0, 0⟩, ⟨0, 5⟩⟩, none⟩

/-- A datatip from provider B. -/
def dtB : Datatip := ⟨"B", some ⟨⟨0, 0⟩, ⟨0, 3⟩⟩, none⟩

/-- Provider A: inclusionPriority 10, valid for every scope. -/
def provA : ProviderSpec := ⟨some "A", 10, fun _ => true⟩

/-- Provider B: inclusionPriority 5, valid for every scope. -/
def provB : ProviderSpec := ⟨some "B", 5, fun _ => true⟩

/-- A provider with inclusionPriority 0 (never applicable). -/
def provZero : ProviderSpec := ⟨some "Z", 0, fun _ => true⟩

/-- Invocation outcomes: A resolves dtA, everything else resolves dtB. -/
def invokeAB : ProviderSpec → ProviderResult := fun p =>
  if p.providerName = some "A" then .ok (some dtA) else .ok (some dtB)

/-- C1: the claim says the race returns the first non-null provider result
in descending inclusion-priority order over the scope-applicable providers.
The code instead maps the attempts over the original unsorted, unfiltered
providers array (the computed filteredDatatipProviders is used only for the
emptiness check), so with B (priority 5) listed before A (priority 10) the
code returns B's datatip while the priority-ordered race the claim
describes returns A's.  The no-applicable-providers part of the claim does
hold: with only a zero-priority provider the race returns null with no
attempt run. -/
theorem c1_race_order_bug :
    ((getTopDatatipAndProvider [provB, provA] "source.js" invokeAB).1.map
        (fun w => w.datatip.payload) = some "B")
    ∧ ((specTopDatatipAndProvider [provB, provA] "source.js" invokeAB).map
        (fun w => w.datatip.payload) = some "A")
    ∧ ((getTopDatatipAndProvider [provB, provA] "source.js" invokeAB).1.map
          (fun w => w.datatip.payload) ≠
        (specTopDatatipAndProvider [provB, provA] "source.js" invokeAB).map
          (fun w => w.datatip.payload))
    ∧ getTopDatatipAndProvider [provZero] "source.js" invokeAB = (none, []) := by
  refine ⟨rfl, rfl, by decide, rfl⟩

/-! ## The only transition into VISIBLE is the mounting branch -/

theorem hideDatatip_datatipState (s : DatatipManagerForEditor) (now : Nat) :
    (s.hideDatatip now).datatipState = s.datatipState := rfl

theorem setState_datatipState (s : DatatipManagerForEditor) (now : Nat)
    (st : DatatipState) : (s.setState now st).datatipState = st := by
  unfold DatatipManagerForEditor.setState
  dsimp only
  repeat' split
  all_goals rfl

/-- The step from s to a successor state can make the state VISIBLE only
while also mounting the marker. -/
def IntoVisible (s s' : DatatipManagerForEditor) : Prop :=
  s'.datatipState = .VISIBLE → s.datatipState = .VISIBLE ∨ s'.marker = true

theorem intoVisible_of_state_eq {s s' : DatatipManagerForEditor}
    (h : s'.datatipState = s.datatipState) : IntoVisible s s' :=
  fun hv => Or.inl (h ▸ hv)

theorem intoVisible_of_not_visible {s s' : DatatipManagerForEditor}
    {st : DatatipState} (h : s'.datatipState = st) (hne : st ≠ .VISIBLE) :
    IntoVisible s s' := by
  intro hv
  rw [h] at hv
  exact absurd hv hne

theorem intoVisible_of_state_cases {s s' : DatatipManagerForEditor}
    (h : s'.datatipState = s.datatipState ∨ s'.datatipState = .HIDDEN ∨
      s'.datatipState = .FETCHING) : IntoVisible s s' := by
  intro hv
  rcases h with h | h | h
  · exact Or.inl (h ▸ hv)
  · rw [hv] at h
    cases h
  · rw [hv] at h
    cases h

theorem startFetchingBegin_state (s : DatatipManagerForEditor) (now : Nat)
    (position : Option BufferPoint) :
    (s.startFetchingBegin now position).datatipState = s.datatipState ∨
      (s.startFetchingBegin now position).datatipState = .FETCHING := by
  cases position with
  | none => exact Or.inl rfl
  | some p => exact Or.inr (setState_datatipState s now .FETCHING)

theorem hideOrCancel_state (s : DatatipManagerForEditor) (now : Nat) :
    (s.hideOrCancel now).datatipState = s.datatipState ∨
      (s.hideOrCancel now).datatipState = .HIDDEN := by
  unfold DatatipManagerForEditor.hideOrCancel
  split
  · exact Or.inl rfl
  · exact Or.inr (setState_datatipState s now .HIDDEN)

theorem hideIfOutsideImmediate_state (s : DatatipManagerForEditor)
    (now : Nat) :
    (s.hideIfOutsideImmediate now).datatipState = s.datatipState ∨
      (s.hideIfOutsideImmediate now).datatipState = .HIDDEN := by
  unfold DatatipManagerForEditor.hideIfOutsideImmediate
  dsimp only
  repeat' split
  all_goals first
    | exact Or.inl rfl
    | exact Or.inr (setState_datatipState _ now .HIDDEN)

theorem hideIfOutside_state (s : DatatipManagerForEditor) (now : Nat) :
    (s.hideIfOutside now).datatipState = s.datatipState ∨
      (s.hideIfOutside now).datatipState = .HIDDEN := by
  unfold DatatipManagerForEditor.hideIfOutside
  repeat' split
  all_goals first
    | exact Or.inl rfl
    | exact hideIfOutsideImmediate_state s now

theorem fetchInResponseToKeyPress_state (s : DatatipManagerForEditor)
    (now : Nat) (cursorPos : Option BufferPoint) :
    (s.fetchInResponseToKeyPress now cursorPos).datatipState = s.datatipState ∨
      (s.fetchInResponseToKeyPress now cursorPos).datatipState = .FETCHING := by
  unfold DatatipManagerForEditor.fetchInResponseToKeyPress
  split
  · exact startFetchingBegin_state s now cursorPos
  · exact startFetchingBegin_state s now s.lastMoveEvent

theorem fetchResultChecks_state_or_marker (s1 : DatatipManagerForEditor)
    (now : Nat) (d : FetchData) (currentPos : Option BufferPoint) :
    (s1.fetchResultChecks now d currentPos).datatipState = .HIDDEN ∨
      (s1.fetchResultChecks now d currentPos).marker = true := by
  unfold DatatipManagerForEditor.fetchResultChecks
  dsimp only
  repeat' split
  all_goals first
    | exact Or.inl (setState_datatipState _ now .HIDDEN)
    | exact Or.inr rfl

theorem fetchResultArrives_intoVisible (s : DatatipManagerForEditor)
    (now : Nat) (data : Option FetchData) (currentPos : Option BufferPoint) :
    IntoVisible s (s.fetchResultArrives now data currentPos) := by
  unfold DatatipManagerForEditor.fetchResultArrives
  cases data with
  | none =>
    exact intoVisible_of_not_visible (setState_datatipState s now .HIDDEN)
      (by decide)
  | some d =>
    dsimp only
    intro hv
    rcases fetchResultChecks_state_or_marker
        (if s.datatipState ≠ .FETCHING then s.setState now .HIDDEN else s)
        now d currentPos with h | h
    · rw [hv] at h
      cases h
    · exact Or.inr h

theorem toggleDatatip_intoVisible (s : DatatipManagerForEditor)
    (eventType : Option String) (now : Nat) (isActiveEditor : Bool)
    (cursorPos : Option BufferPoint) :
    IntoVisible s (s.toggleDatatip eventType now isActiveEditor cursorPos) := by
  unfold DatatipManagerForEditor.toggleDatatip
  dsimp only
  repeat' split
  · exact intoVisible_of_state_eq rfl
  · apply intoVisible_of_state_cases
    rcases startFetchingBegin_state
        { s with lastFetchedFromCursorPosition := true } now cursorPos with
      h | h
    · exact Or.inl h
    · exact Or.inr (Or.inr h)
  · apply intoVisible_of_state_cases
    rcases hideOrCancel_state s now with h | h
    · exact Or.inl h
    · exact Or.inr (Or.inl h)
  · exact intoVisible_of_state_eq rfl

theorem sessionStep_intoVisible (now : Nat) (e : SessionEvent)
    (s : DatatipManagerForEditor) : IntoVisible s (sessionStep now e s) := by
  cases e with
  | focusGained =>
    show IntoVisible s (if _ then _ else _)
    split
    · exact intoVisible_of_state_eq rfl
    · exact intoVisible_of_not_visible
        (setState_datatipState _ now .HIDDEN) (by decide)
  | focusLost =>
    show IntoVisible s (if _ then _ else _)
    split
    · exact intoVisible_of_state_eq rfl
    · exact intoVisible_of_not_visible
        (setState_datatipState _ now .HIDDEN) (by decide)
  | mouseMoved resolvedPos mods =>
    show IntoVisible s (match (s.mousemoveHandler resolvedPos mods).2 with
      | .checkHide => (s.mousemoveHandler resolvedPos mods).1.hideIfOutside now
      | _ => (s.mousemoveHandler resolvedPos mods).1)
    have hstate : (s.mousemoveHandler resolvedPos mods).1.datatipState =
        s.datatipState := by
      unfold DatatipManagerForEditor.mousemoveHandler
      dsimp only
      repeat' split
      all_goals rfl
    cases (s.mousemoveHandler resolvedPos mods).2 with
    | dropped => exact intoVisible_of_state_eq hstate
    | scheduleFetchDebounce => exact intoVisible_of_state_eq hstate
    | checkHide =>
      apply intoVisible_of_state_cases
      rcases hideIfOutside_state (s.mousemoveHandler resolvedPos mods).1 now
        with h | h
      · exact Or.inl (h.trans hstate)
      · exact Or.inr (Or.inl h)
  | mouseLeftEditor =>
    apply intoVisible_of_state_cases
    rcases hideIfOutside_state { s with lastMoveEvent := none } now with h | h
    · exact Or.inl h
    · exact Or.inr (Or.inl h)
  | editorMouseDown insideDatatipElement =>
    show IntoVisible s (if _ then _ else _)
    split
    · exact intoVisible_of_state_eq rfl
    · apply intoVisible_of_state_cases
      rcases hideOrCancel_state s now with h | h
      · exact Or.inl h
      · exact Or.inr (Or.inl h)
  | keyDown modifier cursorPos =>
    cases modifier with
    | none =>
      apply intoVisible_of_state_cases
      rcases hideOrCancel_state s now with h | h
      · exact Or.inl h
      · exact Or.inr (Or.inl h)
    | some k =>
      show IntoVisible s (if _ then _ else _)
      split
      · apply intoVisible_of_state_cases
        rcases fetchInResponseToKeyPress_state
            { s with heldKeys := addModifierKey s.heldKeys k } now cursorPos
          with h | h
        · exact Or.inl h
        · exact Or.inr (Or.inr h)
      · exact intoVisible_of_state_eq rfl
  | keyUp modifier cursorPos =>
    cases modifier with
    | none => exact intoVisible_of_state_eq rfl
    | some k =>
      show IntoVisible s (if _ then _ else _)
      split
      · apply intoVisible_of_state_cases
        rcases fetchInResponseToKeyPress_state
            { s with heldKeys := removeModifierKey s.heldKeys k } now cursorPos
          with h | h
        · exact Or.inl h
        · exact Or.inr (Or.inr h)
      · exact intoVisible_of_state_eq rfl
  | wheelOnDatatip deltaXAbs =>
    show IntoVisible s (if _ then _ else _)
    split
    · exact intoVisible_of_state_eq rfl
    · exact intoVisible_of_state_eq rfl
  | mouseDownOnDatatip => exact intoVisible_of_state_eq rfl
  | mouseEnterDatatip =>
    apply intoVisible_of_state_cases
    rcases hideIfOutside_state { s with insideDatatip := true } now with h | h
    · exact Or.inl h
    · exact Or.inr (Or.inl h)
  | mouseLeaveDatatip =>
    apply intoVisible_of_state_cases
    rcases hideIfOutside_state { s with insideDatatip := false } now with h | h
    · exact Or.inl h
    · exact Or.inr (Or.inl h)
  | scrollTopChanged =>
    show IntoVisible s (if _ then _ else _)
    split
    · exact intoVisible_of_not_visible
        (setState_datatipState _ now .HIDDEN) (by decide)
    · exact intoVisible_of_state_eq rfl
  | toggleCommand eventType isActiveEditor cursorPos =>
    exact toggleDatatip_intoVisible s eventType now isActiveEditor cursorPos
  | fetchDebounceFires =>
    apply intoVisible_of_state_cases
    rcases startFetchingBegin_state s now s.lastMoveEvent with h | h
    · exact Or.inl h
    · exact Or.inr (Or.inr h)
  | hideDebounceFires =>
    apply intoVisible_of_state_cases
    rcases hideIfOutsideImmediate_state s now with h | h
    · exact Or.inl h
    · exact Or.inr (Or.inl h)
  | fetchResult data currentPos =>
    exact fetchResultArrives_intoVisible s now data currentPos
  | pinClicked tipHovering =>
    exact intoVisible_of_not_visible
      (show (s.handlePinClicked now tipHovering).datatipState = .HIDDEN from
        setState_datatipState s now .HIDDEN) (by decide)
  | pinnedTipHidesDatatips => exact intoVisible_of_state_eq rfl

/-! ## Session fixtures -/

/-- A concrete hover position. -/
def p0 : BufferPoint := ⟨0, 2⟩

/-- A concrete datatip range containing p0. -/
def rg0 : BufferRange := ⟨⟨0, 0⟩, ⟨0, 5⟩⟩

/-- A successful fetch result whose range is rg0. -/
def goodFetch : FetchData := ⟨some rg0⟩

/-- Reach VISIBLE: hover, debounce fires, fetch resolves with the cursor
still inside the returned range, then press a modifier key, which triggers
fetchInResponseToKeyPress and re-enters FETCHING without unmounting. -/
def c2Trace : List (Nat × SessionEvent) :=
  [(0, .mouseMoved (some p0) []),
   (1, .fetchDebounceFires),
   (2, .fetchResult (some goodFetch) (some p0)),
   (3, .keyDown (some .alt) none)]

/-- C2 counterexample: a reachable session state (hover fetch mounts the
overlay, then a modifier keydown starts a new fetch) whose state is
FETCHING while the marker/overlay is still mounted, so a mounted overlay
does not hold iff the state is VISIBLE. -/
theorem c2_overlay_iff_counterexample :
    (runSession c2Trace).marker = true ∧
    (runSession c2Trace).datatipState = DatatipState.FETCHING ∧
    ¬((runSession c2Trace).marker = true ↔
      (runSession c2Trace).datatipState = DatatipState.VISIBLE) := by
  refine ⟨rfl, rfl, ?_⟩
  decide

/-- C2 amended: no overlay is mounted while a reachable session state is
HIDDEN (so every transition into HIDDEN unmounts), and the only step that
makes the state VISIBLE also mounts the overlay; but an overlay may persist
while FETCHING (when the new fetch started from VISIBLE), so the claimed
iff with VISIBLE does not hold. -/
theorem c2_overlay_amended :
    (∀ trace : List (Nat × SessionEvent),
      (runSession trace).datatipState = DatatipState.HIDDEN →
        (runSession trace).marker = false)
    ∧ (∀ (now : Nat) (e : SessionEvent) (s : DatatipManagerForEditor),
        (sessionStep now e s).datatipState = DatatipState.VISIBLE →
          s.datatipState = DatatipState.VISIBLE ∨
            (sessionStep now e s).marker = true) := by
  constructor
  · intro trace hst
    have hinv := runSession_overlayInv trace
    cases hm : (runSession trace).marker
    · rfl
    · exact absurd hst (hinv hm)
  · intro now e s
    exact sessionStep_intoVisible now e s

/-- C2 amended witness: the empty trace is HIDDEN with no overlay, and the
mounting step of c2Trace enters VISIBLE with the marker mounted. -/
theorem c2_overlay_amended_witness :
    (runSession []).marker = false ∧
    (sessionStep 2 (.fetchResult (some goodFetch) (some p0))
        (runSession [(0, .mouseMoved (some p0) []),
          (1, .fetchDebounceFires)])).marker = true := by
  constructor
  · exact c2_overlay_amended.1 [] rfl
  · have h := c2_overlay_amended.2 2 (.fetchResult (some goodFetch) (some p0))
      (runSession [(0, .mouseMoved (some p0) []), (1, .fetchDebounceFires)])
      (by decide)
    rcases h with h | h
    · exact absurd h (by decide)
    · exact h

/-- Reach HIDDEN while a fetch begun earlier is still in flight: hover,
debounce fires (state FETCHING), then the editor loses focus, which sets
the state to HIDDEN. -/
def c3PreTrace : List (Nat × SessionEvent) :=
  [(0, .mouseMoved (some p0) []),
   (1, .fetchDebounceFires),
   (2, .focusLost)]

/-- c3PreTrace followed by the late arrival of the in-flight fetch result,
with the cursor still inside the returned range. -/
def c3Trace : List (Nat × SessionEvent) :=
  c3PreTrace ++ [(3, .fetchResult (some goodFetch) (some p0))]

/-- C3 counterexample: a fetch result arriving while the session is no
longer FETCHING (the state was reset to HIDDEN by a blur during the fetch)
is still mounted when the cursor remains inside the returned range: the
state re-check sets HIDDEN but does not return, so the session ends VISIBLE
with the overlay mounted.  This refutes the claim that a result arriving
when the state is no longer FETCHING is always discarded. -/
theorem c3_stale_mount_counterexample :
    (runSession c3PreTrace).datatipState = DatatipState.HIDDEN ∧
    (runSession c3Trace).datatipState = DatatipState.VISIBLE ∧
    (runSession c3Trace).marker = true :=
  ⟨rfl, rfl, rfl⟩

/-- C3 amended: a late fetch result is discarded (the session ends HIDDEN)
whenever the current cursor position is gone or no longer inside the
returned range, and likewise when the result is null; the state re-check
alone sets HIDDEN but does not prevent mounting when the current-position
check passes. -/
theorem c3_stale_discard_amended :
    ∀ (s : DatatipManagerForEditor) (now : Nat) (d : FetchData)
      (currentPos : Option BufferPoint),
      (match currentPos, d.range with
        | some cp, some rg => rg.containsPoint cp = false
        | _, _ => True) →
      (s.fetchResultArrives now (some d) currentPos).datatipState =
          DatatipState.HIDDEN
        ∧ ∀ cp2 : Option BufferPoint,
            (s.fetchResultArrives now none cp2).datatipState =
              DatatipState.HIDDEN := by
  intro s now d currentPos hcp
  constructor
  · unfold DatatipManagerForEditor.fetchResultArrives
    dsimp only
    generalize (if s.datatipState ≠ DatatipState.FETCHING
      then s.setState now DatatipState.HIDDEN else s) = s1
    unfold DatatipManagerForEditor.fetchResultChecks
    dsimp only
    split
    · exact setState_datatipState _ now .HIDDEN
    · rw [if_pos]
      · exact setState_datatipState _ now .HIDDEN
      · cases currentPos with
        | none => rfl
        | some cp =>
          cases hdr : d.range with
          | none => rfl
          | some rg =>
            rw [hdr] at hcp
            simp only at hcp
            show (!rg.containsPoint cp) = true
            simp [hcp]
  · intro cp2
    exact setState_datatipState s now .HIDDEN

/-- C3 amended witness: a result whose range does not contain the current
position is discarded, evaluated at a concrete session and position. -/
theorem c3_stale_discard_amended_witness :
    (initialManagerForEditor.fetchResultArrives 0 (some goodFetch)
        (some ⟨9, 9⟩)).datatipState = DatatipState.HIDDEN :=
  (c3_stale_discard_amended initialManagerForEditor 0 goodFetch
    (some ⟨9, 9⟩)
    (show rg0.containsPoint ⟨9, 9⟩ = false from by decide)).1

/-- Reach FETCHING: hover then the fetch debounce fires. -/
def c4BaseTrace : List (Nat × SessionEvent) :=
  [(0, .mouseMoved (some p0) []), (1, .fetchDebounceFires)]

/-- The same fetch but with a hovering pinned tip created beforehand through
the pin-click handler, which does add the tip to the session's set. -/
def c4PinClickTrace : List (Nat × SessionEvent) :=
  [(0, .pinClicked true),
   (1, .mouseMoved (some p0) []),
   (2, .fetchDebounceFires)]

/-- C4: the claim requires any live PinnedDatatip with isHovering() true to
keep the hover tooltip out of VISIBLE, for tips created by the pin-click
handler and by the createPinnedDataTip API alike.  The API path violates
it: createPinnedDataTip never adds the tip to the session's pinnedDatatips
set (even though the disposal callback it installs removes the tip from
that set, showing the insertion was intended), so isHoveringOverPinnedTip
ignores the hovering tip and a successful fetch still mounts the hover
tooltip.  The pin-click path, whose tip is in the set, suppresses the mount
as claimed. -/
theorem c4_pinned_hover_bug :
    ((runSession c4BaseTrace).createPinnedDataTip true).1.isHovering = true
    ∧ ((runSession c4BaseTrace).createPinnedDataTip true).2 =
        runSession c4BaseTrace
    ∧ (((runSession c4BaseTrace).createPinnedDataTip
        true).2).isHoveringOverPinnedTip = false
    ∧ ((((runSession c4BaseTrace).createPinnedDataTip true).2).fetchResultArrives
        2 (some goodFetch) (some p0)).datatipState = DatatipState.VISIBLE
    ∧ (runSession c4PinClickTrace).isHoveringOverPinnedTip = true
    ∧ ((runSession c4PinClickTrace).fetchResultArrives 3 (some goodFetch)
        (some p0)).datatipState = DatatipState.HIDDEN :=
  ⟨rfl, rfl, rfl, rfl, rfl, rfl⟩

/-- Reach a state whose last hide happened at time 1000: hover, fetch
mounts, then a mousedown outside the datatip element hides at t = 1000. -/
def c5PreTrace : List (Nat × SessionEvent) :=
  [(0, .mouseMoved (some p0) []),
   (1, .fetchDebounceFires),
   (2, .fetchResult (some goodFetch) (some p0)),
   (1000, .editorMouseDown false)]

/-- C5 counterexample: a toggle command arriving as a keydown 50ms after
the last hide does not force a show: performance.now() minus the last
hidden time must exceed 100 for forceShow, and a keydown is neither
forceHide nor forceToggle, so the handler does nothing at all (the session
is returned unchanged, still HIDDEN).  This refutes the claimed 50ms
behavior. -/
theorem c5_toggle_50ms_counterexample :
    (runSession c5PreTrace).datatipState = DatatipState.HIDDEN ∧
    (runSession c5PreTrace).lastHiddenTime = 1000 ∧
    (runSession c5PreTrace).toggleDatatip (some "keydown") 1050 true (some p0) =
      runSession c5PreTrace :=
  ⟨rfl, rfl, rfl⟩

/-- C5 amended: a toggle command delivered as a keydown more than 100ms
after the last hide forces a show at the cursor position regardless of the
session's current state: the session enters FETCHING from the cursor
position with the fetched-from-cursor flag set. -/
theorem c5_toggle_forceshow_amended :
    ∀ (s : DatatipManagerForEditor) (now : Nat) (cp : BufferPoint),
      100 < now - s.lastHiddenTime →
      (s.toggleDatatip (some "keydown") now true (some cp)).datatipState =
          DatatipState.FETCHING
      ∧ (s.toggleDatatip (some "keydown") now true
          (some cp)).lastFetchedFromCursorPosition = true
      ∧ (s.toggleDatatip (some "keydown") now true (some cp)).lastPosition =
          some cp := by
  intro s now cp h
  unfold DatatipManagerForEditor.toggleDatatip
  rw [if_neg (by decide : ¬((!true) = true))]
  dsimp only
  rw [if_pos (Or.inl ⟨rfl, h⟩)]
  refine ⟨?_, rfl, rfl⟩
  exact setState_datatipState
    { s with lastFetchedFromCursorPosition := true } now .FETCHING

/-- C5 amended witness: at 200ms after a hide at time 0, the keydown toggle
enters FETCHING at the cursor position. -/
theorem c5_toggle_forceshow_amended_witness :
    (initialManagerForEditor.toggleDatatip (some "keydown") 200 true
      (some p0)).datatipState = DatatipState.FETCHING :=
  (c5_toggle_forceshow_amended initialManagerForEditor 200 p0 (by decide)).1

/-- A session that is HIDDEN but has a recorded mousemove position. -/
def c7Trace : List (Nat × SessionEvent) := [(0, .mouseMoved (some p0) [])]

/-- C7 counterexample: hideOrCancel on an already-HIDDEN session is not a
no-op on the session's observable fields: it overwrites the blacklisted
position with the position of the last mousemove, producing a different
session value (the blacklist later suppresses a fetch result containing
that position). -/
theorem c7_hide_hidden_counterexample :
    (runSession c7Trace).datatipState = DatatipState.HIDDEN ∧
    (runSession c7Trace).blacklistedPosition = none ∧
    ((runSession c7Trace).hideOrCancel 5).blacklistedPosition = some p0 ∧
    (runSession c7Trace).hideOrCancel 5 ≠ runSession c7Trace := by
  refine ⟨rfl, rfl, rfl, by decide⟩

/-- C7 amended: hideOrCancel on an already-HIDDEN session never throws and
leaves the state HIDDEN, the overlay untouched and every other field
unchanged, except that the blacklisted position is overwritten with the
position of the last mousemove. -/
theorem c7_hide_hidden_amended :
    ∀ (s : DatatipManagerForEditor) (now : Nat),
      s.datatipState = DatatipState.HIDDEN →
      s.hideOrCancel now = { s with blacklistedPosition := s.lastMoveEvent }
      ∧ (s.hideOrCancel now).datatipState = DatatipState.HIDDEN
      ∧ (s.hideOrCancel now).marker = s.marker := by
  intro s now h
  have heq : s.hideOrCancel now =
      { s with blacklistedPosition := s.lastMoveEvent } := by
    unfold DatatipManagerForEditor.hideOrCancel
    rw [if_pos (Or.inl h)]
  refine ⟨heq, ?_, ?_⟩
  · rw [heq]
    exact h
  · rw [heq]

/-- C7 amended witness: evaluated at the concrete HIDDEN session with a
recorded mousemove. -/
theorem c7_hide_hidden_amended_witness :
    (runSession c7Trace).hideOrCancel 5 =
      { runSession c7Trace with
        blacklistedPosition := (runSession c7Trace).lastMoveEvent } :=
  (c7_hide_hidden_amended (runSession c7Trace) 5 rfl).1

/-- C8: configuration validation.  A configured debounce-delay value that
is not a number, or is negative, is replaced by the documented default,
1000, for both the fetch-start delay and the interacted-hide delay; any
non-negative numeric value is used unchanged. -/
theorem c8_ensure_positive_number :
    (∀ v : JSVal, v.isNumber = false →
      startFetchingDebounceDelay v = 1000 ∧ hideIfOutsideDebounceDelay v = 1000)
    ∧ (∀ n : Int, n < 0 →
      startFetchingDebounceDelay (.num n) = 1000 ∧
        hideIfOutsideDebounceDelay (.num n) = 1000)
    ∧ (∀ n : Int, 0 ≤ n →
      startFetchingDebounceDelay (.num n) = n ∧
        hideIfOutsideDebounceDelay (.num n) = n) := by
  refine ⟨?_, ?_, ?_⟩
  · intro v hv
    cases v <;>
      simp_all [startFetchingDebounceDelay, hideIfOutsideDebounceDelay,
        ensurePositiveNumber, JSVal.isNumber, DEFAULT_DATATIP_DEBOUNCE_DELAY,
        DEFAULT_DATATIP_INTERACTED_DEBOUNCE_DELAY]
  · intro n hn
    constructor <;>
      simp [startFetchingDebounceDelay, hideIfOutsideDebounceDelay,
        ensurePositiveNumber, DEFAULT_DATATIP_DEBOUNCE_DELAY,
        DEFAULT_DATATIP_INTERACTED_DEBOUNCE_DELAY, if_pos hn]
  · intro n hn
    constructor <;>
      simp [startFetchingDebounceDelay, hideIfOutsideDebounceDelay,
        ensurePositiveNumber, if_neg (not_lt.mpr hn)]

/-- C8 witness: a string value and a negative number fall back to 1000; a
non-negative number is used as configured. -/
theorem c8_ensure_positive_number_witness :
    startFetchingDebounceDelay (.str "soon") = 1000 ∧
    hideIfOutsideDebounceDelay (.num (-5)) = 1000 ∧
    startFetchingDebounceDelay (.num 250) = 250 :=
  ⟨(c8_ensure_positive_number.1 (.str "soon") rfl).1,
   (c8_ensure_positive_number.2.1 (-5) (by decide)).2,
   (c8_ensure_positive_number.2.2 250 (by decide)).1⟩

/-- C9: DatatipManager.createPinnedDataTip fails loudly with the source's
error message when the editor has no session in the per-editor map, and
otherwise returns the session's new pinned tip with the manager unchanged. -/
theorem c9_create_pinned_requires_session :
    ∀ (m : DatatipManager) (editorId : Nat) (tipHovering : Bool),
      (lookupEditorManager m.editorManagers editorId = none →
        m.createPinnedDataTip editorId tipHovering =
          .error ("Trying to create a pinned data tip on an editor that has " ++
            "no datatip manager"))
      ∧ (∀ mgr, lookupEditorManager m.editorManagers editorId = some mgr →
          m.createPinnedDataTip editorId tipHovering =
            .ok ((mgr.createPinnedDataTip tipHovering).1, m)) := by
  intro m editorId tipHovering
  constructor
  · intro hnone
    unfold DatatipManager.createPinnedDataTip
    rw [hnone]
  · intro mgr hsome
    unfold DatatipManager.createPinnedDataTip
    rw [hsome]

/-- C9 witness: a manager tracking editor 0 only: creating a pinned tip for
editor 1 errors, creating one for editor 0 succeeds with the manager
unchanged. -/
theorem c9_create_pinned_requires_session_witness :
    DatatipManager.createPinnedDataTip ⟨[(0, initialManagerForEditor)]⟩ 1
        true =
      .error ("Trying to create a pinned data tip on an editor that has " ++
        "no datatip manager")
    ∧ DatatipManager.createPinnedDataTip ⟨[(0, initialManagerForEditor)]⟩ 0
        true =
      .ok ((initialManagerForEditor.createPinnedDataTip true).1,
        ⟨[(0, initialManagerForEditor)]⟩) :=
  ⟨(c9_create_pinned_requires_session ⟨[(0, initialManagerForEditor)]⟩ 1
      true).1 rfl,
   (c9_create_pinned_requires_session ⟨[(0, initialManagerForEditor)]⟩ 0
      true).2 initialManagerForEditor rfl⟩

/-- C10: the focus handler arms the one-shot drop flag, and the first
mousemove after it consumes the flag without recording the move event and
without scheduling the fetch debounce or running the hide check; with the
flag clear, a mousemove while HIDDEN schedules the fetch debounce. -/
theorem c10_drop_first_mousemove_after_focus :
    ∀ (s : DatatipManagerForEditor) (now : Nat) (pos : Option BufferPoint)
      (mods : List ModifierKey),
      ((sessionStep now .focusGained s).shouldDropNextMouseMoveAfterFocus =
        true)
      ∧ (s.shouldDropNextMouseMoveAfterFocus = true →
          s.mousemoveHandler pos mods =
            ({ s with
                lastFetchedFromCursorPosition := false
                shouldDropNextMouseMoveAfterFocus := false },
              .dropped))
      ∧ (s.shouldDropNextMouseMoveAfterFocus = false →
          s.datatipState = DatatipState.HIDDEN →
          (s.mousemoveHandler pos mods).2 = .scheduleFetchDebounce) := by
  intro s now pos mods
  refine ⟨?_, ?_, ?_⟩
  · show (if ({ s with shouldDropNextMouseMoveAfterFocus := true }).insideDatatip
          = true
        then { s with shouldDropNextMouseMoveAfterFocus := true }
        else ({ s with shouldDropNextMouseMoveAfterFocus := true }).setState
          now .HIDDEN).shouldDropNextMouseMoveAfterFocus = true
    split
    · rfl
    · unfold DatatipManagerForEditor.setState
        DatatipManagerForEditor.hideDatatip
      dsimp only
      repeat' split
      all_goals rfl
  · intro h
    unfold DatatipManagerForEditor.mousemoveHandler
    dsimp only
    rw [if_pos h]
  · intro h hst
    unfold DatatipManagerForEditor.mousemoveHandler
    dsimp only
    rw [if_neg (by simp [h]), if_pos hst]

/-- C10 witness: after a focus event on the fresh session, the next
mousemove is dropped; on the fresh session itself (flag clear, HIDDEN) a
mousemove schedules the fetch debounce. -/
theorem c10_drop_first_mousemove_after_focus_witness :
    ((sessionStep 0 .focusGained initialManagerForEditor).mousemoveHandler
        (some p0) []).2 = MouseMoveAction.dropped
    ∧ (initialManagerForEditor.mousemoveHandler (some p0) []).2 =
        MouseMoveAction.scheduleFetchDebounce := by
  constructor
  · have hflag := (c10_drop_first_mousemove_after_focus
      initialManagerForEditor 0 (some p0) []).1
    have hdrop := (c10_drop_first_mousemove_after_focus
      (sessionStep 0 .focusGained initialManagerForEditor) 0 (some p0) []).2.1
      hflag
    rw [hdrop]
  · exact (c10_drop_first_mousemove_after_focus
      initialManagerForEditor 0 (some p0) []).2.2 rfl rfl
